import Mathlib

/-!
Verification of the database-session lifecycle and navigation-state
resolution logic of a browser-based SQLite inspector (Express router in
`src/routes/index.js`).  Filesystem paths are modelled as normalized
segment lists, the file store as a list of existing paths, and the
process-wide active-database handle as an optional path.  The Express
routes are embedded as pure state-transition functions; the Data Query
Provider calls (which live in a module outside the given sources) are
modelled from the specification where noted.
-/

namespace PythagoraLab

/-- A filesystem path, as the list of its segments after normalization
(the way `path.join` returns it). -/
abbrev FsPath := List String

/-- Splitting a list of characters on `/` (the character-level model of
`String.splitOn "/"`, written structurally so it evaluates in the
kernel). -/
def splitSegsAux : List Char → List Char → List String
  | [], acc => [String.mk acc.reverse]
  | c :: cs, acc =>
    if c = '/' then String.mk acc.reverse :: splitSegsAux cs []
    else splitSegsAux cs (c :: acc)

/-- Split a string into `/`-separated segments. -/
def splitSegs (s : String) : List String := splitSegsAux s.data []

/-- One step of Node-style path normalization over a reversed segment
stack: `""` and `"."` segments are dropped, `".."` pops the last segment
(at the root it is simply discarded, as for an absolute base path), any
other segment is pushed. -/
def joinStep (stack : List String) (s : String) : List String :=
  if s = "" ∨ s = "." then stack
  else if s = ".." then stack.tail
  else s :: stack

/-- Model of Node's `path.join(base, name)` for an absolute, already
normalized `base`: split `name` on `/` and normalize the concatenation. -/
def pathJoin (base : FsPath) (name : String) : FsPath :=
  ((base ++ splitSegs name).foldl joinStep []).reverse

/-- The uploads directory (`path.join(__dirname, '..', 'uploads')`),
an absolute path modelled by its segments. -/
def uploadsDir : FsPath := ["app", "uploads"]

/-- Whether a path lies inside the uploads directory. -/
def withinUploads (p : FsPath) : Prop :=
  p.take uploadsDir.length = uploadsDir

instance (p : FsPath) : Decidable (withinUploads p) := by
  unfold withinUploads; infer_instance

/-- The observable state the routes mutate: the set of files existing on
the filesystem, and `global.dbPath`, the active-database handle. -/
structure SysState where
  fs : List FsPath
  active : Option FsPath
  deriving DecidableEq, Repr

/-- Result of a session-mutating route: the new state and the HTTP
status it responds with (302 for a redirect). -/
structure OpResult where
  state : SysState
  status : Nat
  deriving DecidableEq, Repr

/-- `POST /select-database` (src/routes/index.js:62-71): reject a falsy
name with 400, otherwise set `global.dbPath` to the joined path — with
no existence check — and redirect. -/
def selectDatabase (st : SysState) (name : String) : OpResult :=
  if name = "" then ⟨st, 400⟩
  else ⟨{ st with active := some (pathJoin uploadsDir name) }, 302⟩

/-- The File Store delete primitive (`fs.unlink` as the route uses it):
remove the path if it exists, surface an IO error (500) otherwise. -/
def fileStoreDelete (st : SysState) (p : FsPath) : OpResult :=
  if p ∈ st.fs then ⟨{ st with fs := st.fs.erase p }, 302⟩
  else ⟨st, 500⟩

/-- `POST /delete-database` (src/routes/index.js:238-256): reject a
falsy name with 400; refuse with 400 if the joined path equals the
active handle; otherwise unlink the joined path. -/
def deleteDatabase (st : SysState) (name : String) : OpResult :=
  if name = "" then ⟨st, 400⟩
  else
    let p := pathJoin uploadsDir name
    if st.active = some p then ⟨st, 400⟩
    else fileStoreDelete st p

/-- `POST /rename-database` (src/routes/index.js:74-90): reject falsy
names with 400; otherwise `fs.rename` the joined old path to the joined
new path (500 if the source does not exist); the active handle is never
touched. -/
def renameDatabase (st : SysState) (oldName newName : String) : OpResult :=
  if oldName = "" ∨ newName = "" then ⟨st, 400⟩
  else
    let po := pathJoin uploadsDir oldName
    let pn := pathJoin uploadsDir newName
    if po ∈ st.fs then ⟨⟨pn :: st.fs.erase po, st.active⟩, 302⟩
    else ⟨st, 500⟩

/-- The Session Registry invariant claimed by the spec: if the active
handle is set, the referenced file exists in the File Store. -/
def activeInvariant (st : SysState) : Prop :=
  ∀ p, st.active = some p → p ∈ st.fs

instance (st : SysState) : Decidable (activeInvariant st) :=
  match h : st.active with
  | none => isTrue (fun p hp => by simp [h] at hp)
  | some q =>
      if hq : q ∈ st.fs then
        isTrue (fun p hp => by rw [h] at hp; cases hp; exact hq)
      else
        isFalse (fun hinv => hq (hinv q h))

/-! ## Upload flow (`POST /upload`, src/routes/index.js:93-126) -/

/-- The suffix of a character list from its last `.` on, if any. -/
def lastDotSplit : List Char → Option (List Char)
  | [] => none
  | c :: cs =>
    match lastDotSplit cs with
    | some t => some t
    | none => if c = '.' then some (c :: cs) else none

/-- Model of Node's `path.extname` for ordinary file names: the suffix
of the name from its last `.` on, or `""` when the name has no dot or
only a leading dot (`".bashrc"`). -/
def extname (s : String) : String :=
  match s.data with
  | [] => ""
  | _ :: cs =>
    match lastDotSplit cs with
    | some t => String.mk t
    | none => ""

/-- ASCII lowercasing of one character (the model of the
`toLowerCase()` the extension test applies). -/
def lowerChar (c : Char) : Char :=
  if 'A' ≤ c ∧ c ≤ 'Z' then Char.ofNat (c.toNat + 32) else c

/-- ASCII lowercasing of a string. -/
def lowerStr (s : String) : String := String.mk (s.data.map lowerChar)

/-- Multer's `fileFilter` extension test (src/routes/index.js:34-35):
`/\.(sqlite|sqlite3|db)$/` on the lowercased extension, or an empty
extension. -/
def allowedExt (originalname : String) : Bool :=
  let e := lowerStr (extname originalname)
  e = ".sqlite" ∨ e = ".sqlite3" ∨ e = ".db" ∨ extname originalname = ""

/-- Multer's `fileSize` limit (src/routes/index.js:42). -/
def fileSizeLimit : Nat := 1000000000

/-- The stored file name (src/routes/index.js:24):
`fieldname + '-' + Date.now() + extension`, with field name
`databaseFile` and the upload timestamp as the unique token. -/
def storedName (token : Nat) (originalname : String) : String :=
  "databaseFile-" ++ toString token ++ extname originalname

/-- The incoming multipart file: its client-supplied name, its size, and
whether its bytes open as a valid SQLite database (the outcome of the
read-only probe). -/
structure UploadFile where
  originalname : String
  size : Nat
  validSqlite : Bool
  deriving DecidableEq, Repr

/-- The externally observable events of the upload flow, in order. -/
inductive UpEvent where
  | store (p : FsPath)
  | openProbe (p : FsPath)
  | closeProbe
  | unlink (p : FsPath)
  | setActive (p : FsPath)
  deriving DecidableEq, Repr

/-- Result of the upload route: final state, HTTP status, response
message (empty for a redirect), and the event trace. -/
structure UploadResult where
  state : SysState
  status : Nat
  message : String
  trace : List UpEvent
  deriving DecidableEq, Repr

/-- `POST /upload` (src/routes/index.js:93-126).  A multer error (bad
extension from `fileFilter`, or oversize from `limits`) reaches the
`err` branch and answers 500 with the error message; a missing file
answers 400; otherwise the file is already stored by multer, then probed
read-only: on probe failure the stored file is unlinked and the route
answers 400, on success the probe is closed, the database activated and
the client redirected. -/
def uploadFlow (st : SysState) (req : Option UploadFile) (token : Nat) :
    UploadResult :=
  match req with
  | none => ⟨st, 400, "Error: No file selected", []⟩
  | some f =>
    if ¬ allowedExt f.originalname then
      ⟨st, 500, "Error: File upload only supports the following filetypes - .db, .sqlite, .sqlite3 or files without an extension", []⟩
    else if fileSizeLimit < f.size then
      ⟨st, 500, "File too large", []⟩
    else
      let p := uploadsDir ++ [storedName token f.originalname]
      if f.validSqlite then
        ⟨⟨p :: st.fs, some p⟩, 302, "",
          [.store p, .openProbe p, .closeProbe, .setActive p]⟩
      else
        ⟨⟨(p :: st.fs).erase p, st.active⟩, 400,
          "Error: Uploaded file is not a valid SQLite database",
          [.store p, .openProbe p, .unlink p]⟩

/-- An HTTP status in the client-error range. -/
def isClientError (s : Nat) : Prop := 400 ≤ s ∧ s < 500

instance (s : Nat) : Decidable (isClientError s) := by
  unfold isClientError; infer_instance

/-! ## Navigation resolution (`GET /projects`, src/routes/index.js:129-172) -/

/-- A project row as the resolver reads it (`id`, `created_at`; other
columns are opaque to the core).  `created_at` is a timestamp, modelled
as a natural number so that `new Date(x) - new Date(y)` comparisons
become comparisons on naturals. -/
structure Project where
  id : Nat
  created_at : Nat
  deriving DecidableEq, Repr

/-- A branch row: `id`, owning `project_id`, `created_at`. -/
structure Branch where
  id : Nat
  project_id : Nat
  created_at : Nat
  deriving DecidableEq, Repr

/-- A project-state row: `id`, owning `branch_id`, and the columns the
multi-criteria search matches against. -/
structure ProjectState where
  id : Nat
  branch_id : Nat
  task : String
  epic : String
  iteration : String
  llm_request : String
  agent : String
  deriving DecidableEq, Repr

/-- The contents of the active SQLite database, as seen through the Data
Query Provider. -/
structure Db where
  projects : List Project
  branches : List Branch
  states : List ProjectState
  deriving DecidableEq, Repr

/-- Modelled from the spec: the Data Query Provider's `getProjects`
(src/utils/projectQueries.js is not among the given sources) returns all
project records of the database. -/
def getProjects (db : Db) : List Project := db.projects

/-- Modelled from the spec: `getBranchesByProjectId` returns the
branches whose `project_id` is the given project. -/
def getBranchesByProjectId (db : Db) (pid : Nat) : List Branch :=
  db.branches.filter (fun b => b.project_id = pid)

/-- Modelled from the spec: `getProjectStatesByBranchId` returns all
states of the given branch, unfiltered. -/
def getProjectStatesByBranchId (db : Db) (bid : Nat) : List ProjectState :=
  db.states.filter (fun s => s.branch_id = bid)

/-- Whether one optional search criterion accepts a column value: an
absent or empty criterion accepts everything; the matching semantics for
a present one is owned by the provider, modelled here as equality. -/
def critMatches (crit : Option String) (v : String) : Bool :=
  match crit with
  | none => true
  | some c => c = "" ∨ v = c

/-- Modelled from the spec: `searchProjectStates` restricts the states
of the given branch by the conjunction (logical AND) of all provided
criteria, each passed through verbatim. -/
def searchProjectStates (db : Db) (task epic iteration llm_request agent :
    Option String) (bid : Nat) : List ProjectState :=
  db.states.filter (fun s =>
    s.branch_id = bid ∧ critMatches task s.task ∧ critMatches epic s.epic ∧
    critMatches iteration s.iteration ∧
    critMatches llm_request s.llm_request ∧ critMatches agent s.agent)

/-- The optional request parameters of the browse endpoint.  The ids are
`Option Nat` where `none` stands for a JS-falsy value (absent or empty);
the filter fields keep the absent/empty distinction explicitly. -/
structure NavQuery where
  projectId : Option Nat := none
  branchId : Option Nat := none
  task : Option String := none
  epic : Option String := none
  iteration : Option String := none
  llm_request : Option String := none
  agent : Option String := none
  deriving DecidableEq, Repr

/-- JS truthiness of an optional query string: `undefined` and `""` are
falsy, every other string truthy. -/
def truthy : Option String → Bool
  | none => false
  | some s => ¬ s = ""

/-- The route's filter condition (src/routes/index.js:159):
`task || epic || iteration || agent`.  Note `llm_request` is read but
does not trigger the filtered path. -/
def filterRequested (q : NavQuery) : Bool :=
  truthy q.task ∨ truthy q.epic ∨ truthy q.iteration ∨ truthy q.agent

/-- Descending order on projects by `created_at`, the comparator
`(a, b) => new Date(b.created_at) - new Date(a.created_at)`. -/
def projDesc (a b : Project) : Prop := b.created_at ≤ a.created_at

instance : DecidableRel projDesc := fun a b => Nat.decLe b.created_at a.created_at

instance : IsTotal Project projDesc :=
  ⟨fun a b => (Nat.le_total b.created_at a.created_at).imp id id⟩

instance : IsTrans Project projDesc :=
  ⟨fun _ _ _ h1 h2 => Nat.le_trans h2 h1⟩

/-- Descending order on branches by `created_at`. -/
def branchDesc (a b : Branch) : Prop := b.created_at ≤ a.created_at

instance : DecidableRel branchDesc := fun a b => Nat.decLe b.created_at a.created_at

instance : IsTotal Branch branchDesc :=
  ⟨fun a b => (Nat.le_total b.created_at a.created_at).imp id id⟩

instance : IsTrans Branch branchDesc :=
  ⟨fun _ _ _ h1 h2 => Nat.le_trans h2 h1⟩

/-- `projects.sort(...)` with the descending comparator: a stable
descending sort (V8's `Array#sort` is stable, as is insertion sort). -/
def sortProjectsDesc (l : List Project) : List Project :=
  l.insertionSort projDesc

/-- `branches.sort(...)` with the descending comparator. -/
def sortBranchesDesc (l : List Branch) : List Branch :=
  l.insertionSort branchDesc

/-- The payload handed to the `projects` view. -/
structure ResolvedView where
  projects : List Project
  branches : List Branch
  projectStates : List ProjectState
  selectedProjectId : Option Nat
  selectedBranchId : Option Nat
  deriving DecidableEq, Repr

/-- `GET /projects` (src/routes/index.js:129-172), after the active
database is known: sort the projects descending; with no (truthy)
`projectId`, preselect the newest project and newest branch but fetch no
states; with a `projectId`, preselect its newest branch (falling back to
the query's `branchId` when the project has no branches) and, when a
branch id is selected, fetch states — filtered when any of
task/epic/iteration/agent is truthy, unfiltered otherwise. -/
def resolveView (db : Db) (q : NavQuery) : ResolvedView :=
  let projects := sortProjectsDesc (getProjects db)
  match q.projectId with
  | none =>
    match projects with
    | [] => ⟨projects, [], [], none, q.branchId⟩
    | p :: rest =>
      let branches := sortBranchesDesc (getBranchesByProjectId db p.id)
      let selBid := match branches with
        | [] => q.branchId
        | b :: _ => some b.id
      ⟨p :: rest, branches, [], some p.id, selBid⟩
  | some pid =>
    let branches := sortBranchesDesc (getBranchesByProjectId db pid)
    let selBid := match branches with
      | [] => q.branchId
      | b :: _ => some b.id
    let states := match selBid with
      | none => []
      | some bid =>
        if filterRequested q then
          searchProjectStates db q.task q.epic q.iteration q.llm_request
            q.agent bid
        else
          getProjectStatesByBranchId db bid
    ⟨projects, branches, states, some pid, selBid⟩

/-- The C4 scenario: project P1 (id 1, created second), project P2
(id 2, created first), branch B1 (id 10) of P1, one state in B1. -/
def dbC4 : Db :=
  ⟨[⟨2, 1⟩, ⟨1, 2⟩], [⟨10, 1, 5⟩], [⟨100, 10, "", "", "", "", ""⟩]⟩

/-- A one-project scenario: project id 3 with branch id 5 holding one
state (id 7). -/
def dbC7 : Db := ⟨[⟨3, 0⟩], [⟨5, 3, 0⟩], [⟨7, 5, "", "", "", "", ""⟩]⟩

/-! ## Helper lemmas about the descending sorts -/

theorem sortProjectsDesc_perm (l : List Project) :
    (sortProjectsDesc l).Perm l :=
  List.perm_insertionSort projDesc l

theorem sortProjectsDesc_head_max (l : List Project) (p : Project)
    (rest : List Project) (h : sortProjectsDesc l = p :: rest) :
    ∀ x ∈ l, x.created_at ≤ p.created_at := by
  intro x hx
  have hsorted := List.sorted_insertionSort projDesc l
  rw [show List.insertionSort projDesc l = sortProjectsDesc l from rfl, h,
    List.sorted_cons] at hsorted
  have hx2 : x ∈ p :: rest := by
    rw [← h]
    exact ((sortProjectsDesc_perm l).mem_iff).mpr hx
  rcases List.mem_cons.mp hx2 with hx3 | hx3
  · exact hx3 ▸ Nat.le_refl _
  · exact hsorted.1 x hx3

theorem sortBranchesDesc_perm (l : List Branch) :
    (sortBranchesDesc l).Perm l :=
  List.perm_insertionSort branchDesc l

theorem sortBranchesDesc_head_max (l : List Branch) (b : Branch)
    (rest : List Branch) (h : sortBranchesDesc l = b :: rest) :
    ∀ x ∈ l, x.created_at ≤ b.created_at := by
  intro x hx
  have hsorted := List.sorted_insertionSort branchDesc l
  rw [show List.insertionSort branchDesc l = sortBranchesDesc l from rfl, h,
    List.sorted_cons] at hsorted
  have hx2 : x ∈ b :: rest := by
    rw [← h]
    exact ((sortBranchesDesc_perm l).mem_iff).mpr hx
  rcases List.mem_cons.mp hx2 with hx3 | hx3
  · exact hx3 ▸ Nat.le_refl _
  · exact hsorted.1 x hx3

/-! ## Theorems -/

/-- C10: the select, delete and rename routes resolve the target by
joining the uploads directory with the client-supplied name, with no
containment check; the name `../../secret.db` resolves outside the
uploads directory, select activates that outside path, and delete
unlinks it. -/
theorem join_escapes_uploads_dir :
    ¬ withinUploads (pathJoin uploadsDir "../../secret.db") ∧
    pathJoin uploadsDir "../../secret.db" = ["secret.db"] ∧
    (selectDatabase ⟨[["secret.db"]], none⟩ "../../secret.db").state.active
      = some ["secret.db"] ∧
    (deleteDatabase ⟨[["secret.db"]], none⟩ "../../secret.db").state.fs = [] ∧
    (deleteDatabase ⟨[["secret.db"]], none⟩ "../../secret.db").status = 302 := by
  decide

/-- C3 counterexample: selecting a name that does not exist in the File
Store leaves the active handle dangling, so the invariant is not
preserved by every operation. -/
theorem select_breaks_active_invariant :
    activeInvariant ⟨[], none⟩ ∧
    ¬ activeInvariant (selectDatabase ⟨[], none⟩ "ghost.db").state ∧
    (selectDatabase ⟨[], none⟩ "ghost.db").status = 302 := by
  decide

/-- C3 amended: the delete operation preserves the Session Registry
invariant (check-before-delete never leaves the active handle
dangling); select and rename perform no existence or activity checks
and can break it. -/
theorem delete_preserves_active_invariant (st : SysState) (name : String)
    (h : activeInvariant st) :
    activeInvariant (deleteDatabase st name).state := by
  unfold deleteDatabase
  by_cases hname : name = ""
  · simpa [hname] using h
  · simp only [if_neg hname]
    by_cases hact : st.active = some (pathJoin uploadsDir name)
    · simpa [hact] using h
    · simp only [if_neg hact]
      unfold fileStoreDelete
      by_cases hmem : pathJoin uploadsDir name ∈ st.fs
      · simp only [if_pos hmem]
        intro p hp
        have hpfs := h p hp
        have hne : p ≠ pathJoin uploadsDir name := by
          intro hcontra
          exact hact (hcontra ▸ hp)
        exact (List.mem_erase_of_ne hne).mpr hpfs
      · simpa [hmem] using h

/-- C3 amended, witness instance. -/
theorem delete_preserves_active_invariant_witness :
    activeInvariant
      (deleteDatabase ⟨[["app", "uploads", "a.db"]],
        some ["app", "uploads", "a.db"]⟩ "b.db").state :=
  delete_preserves_active_invariant
    ⟨[["app", "uploads", "a.db"]], some ["app", "uploads", "a.db"]⟩ "b.db"
    (by decide)

/-- C2: a deletion request whose name resolves to the active handle is
refused with a client error (400) and the state is unchanged; for any
other name the route delegates to the File Store delete. -/
theorem delete_active_refused (st : SysState) (name : String)
    (hname : name ≠ "") :
    (st.active = some (pathJoin uploadsDir name) →
      (deleteDatabase st name).state = st ∧
      (deleteDatabase st name).status = 400 ∧
      isClientError (deleteDatabase st name).status) ∧
    (st.active ≠ some (pathJoin uploadsDir name) →
      deleteDatabase st name = fileStoreDelete st (pathJoin uploadsDir name)) := by
  constructor
  · intro hact
    simp [deleteDatabase, hname, hact, isClientError]
  · intro hact
    simp [deleteDatabase, hname, hact]

/-- C2, witness instance. -/
theorem delete_active_refused_witness :
    ((⟨[["app", "uploads", "a.db"]], some ["app", "uploads", "a.db"]⟩ :
        SysState).active = some (pathJoin uploadsDir "a.db") →
      (deleteDatabase ⟨[["app", "uploads", "a.db"]],
          some ["app", "uploads", "a.db"]⟩ "a.db").state =
        ⟨[["app", "uploads", "a.db"]], some ["app", "uploads", "a.db"]⟩ ∧
      (deleteDatabase ⟨[["app", "uploads", "a.db"]],
          some ["app", "uploads", "a.db"]⟩ "a.db").status = 400 ∧
      isClientError (deleteDatabase ⟨[["app", "uploads", "a.db"]],
          some ["app", "uploads", "a.db"]⟩ "a.db").status) ∧
    ((⟨[["app", "uploads", "a.db"]], some ["app", "uploads", "a.db"]⟩ :
        SysState).active ≠ some (pathJoin uploadsDir "a.db") →
      deleteDatabase ⟨[["app", "uploads", "a.db"]],
          some ["app", "uploads", "a.db"]⟩ "a.db" =
        fileStoreDelete ⟨[["app", "uploads", "a.db"]],
          some ["app", "uploads", "a.db"]⟩ (pathJoin uploadsDir "a.db")) :=
  delete_active_refused
    ⟨[["app", "uploads", "a.db"]], some ["app", "uploads", "a.db"]⟩ "a.db"
    (by decide)

/-- C1: an upload that passes the extension and size checks but fails
the read-only open probe is first stored, then unlinked: the File Store
is as before, the stored artifact does not exist afterwards, the active
handle is untouched, and the request fails with the
structural-validation client error. -/
theorem upload_invalid_leaves_no_artifact (st : SysState) (f : UploadFile)
    (token : Nat) (hext : allowedExt f.originalname = true)
    (hsize : f.size ≤ fileSizeLimit) (hval : f.validSqlite = false)
    (hfresh : uploadsDir ++ [storedName token f.originalname] ∉ st.fs) :
    (uploadFlow st (some f) token).state.fs = st.fs ∧
    uploadsDir ++ [storedName token f.originalname] ∉
      (uploadFlow st (some f) token).state.fs ∧
    (uploadFlow st (some f) token).state.active = st.active ∧
    (uploadFlow st (some f) token).status = 400 ∧
    isClientError (uploadFlow st (some f) token).status ∧
    (uploadFlow st (some f) token).message =
      "Error: Uploaded file is not a valid SQLite database" ∧
    (uploadFlow st (some f) token).trace =
      [UpEvent.store (uploadsDir ++ [storedName token f.originalname]),
       UpEvent.openProbe (uploadsDir ++ [storedName token f.originalname]),
       UpEvent.unlink (uploadsDir ++ [storedName token f.originalname])] := by
  have hns : ¬ fileSizeLimit < f.size := Nat.not_lt.mpr hsize
  simp [uploadFlow, hext, hns, hval, List.erase_cons_head, hfresh,
    isClientError]

/-- C1, witness instance. -/
theorem upload_invalid_leaves_no_artifact_witness :
    (uploadFlow ⟨[], none⟩ (some ⟨"bad.db", 10, false⟩) 7).state.fs = [] ∧
    uploadsDir ++ [storedName 7 "bad.db"] ∉
      (uploadFlow ⟨[], none⟩ (some ⟨"bad.db", 10, false⟩) 7).state.fs ∧
    (uploadFlow ⟨[], none⟩ (some ⟨"bad.db", 10, false⟩) 7).state.active = none ∧
    (uploadFlow ⟨[], none⟩ (some ⟨"bad.db", 10, false⟩) 7).status = 400 ∧
    isClientError (uploadFlow ⟨[], none⟩ (some ⟨"bad.db", 10, false⟩) 7).status ∧
    (uploadFlow ⟨[], none⟩ (some ⟨"bad.db", 10, false⟩) 7).message =
      "Error: Uploaded file is not a valid SQLite database" ∧
    (uploadFlow ⟨[], none⟩ (some ⟨"bad.db", 10, false⟩) 7).trace =
      [UpEvent.store (uploadsDir ++ [storedName 7 "bad.db"]),
       UpEvent.openProbe (uploadsDir ++ [storedName 7 "bad.db"]),
       UpEvent.unlink (uploadsDir ++ [storedName 7 "bad.db"])] :=
  upload_invalid_leaves_no_artifact ⟨[], none⟩ ⟨"bad.db", 10, false⟩ 7
    (by decide) (by decide) rfl (by decide)

/-- C5 counterexample: on the invalid-format path the flow never closes
the probe connection — the stored file is unlinked without any preceding
close event. -/
theorem probe_not_closed_on_invalid :
    UpEvent.closeProbe ∉
      (uploadFlow ⟨[], none⟩ (some ⟨"badfile.db", 10, false⟩) 3).trace ∧
    UpEvent.unlink (uploadsDir ++ [storedName 3 "badfile.db"]) ∈
      (uploadFlow ⟨[], none⟩ (some ⟨"badfile.db", 10, false⟩) 3).trace := by
  decide

/-- C5 amended: the probe connection is closed only on the success
path; on the invalid-format path no close call is made (the failed open
leaves no usable connection) and the stored file is deleted without a
preceding close. -/
theorem probe_close_only_on_success (st : SysState) (f : UploadFile)
    (token : Nat) (hext : allowedExt f.originalname = true)
    (hsize : f.size ≤ fileSizeLimit) :
    (f.validSqlite = true →
      (uploadFlow st (some f) token).trace =
        [UpEvent.store (uploadsDir ++ [storedName token f.originalname]),
         UpEvent.openProbe (uploadsDir ++ [storedName token f.originalname]),
         UpEvent.closeProbe,
         UpEvent.setActive (uploadsDir ++ [storedName token f.originalname])]) ∧
    (f.validSqlite = false →
      UpEvent.closeProbe ∉ (uploadFlow st (some f) token).trace ∧
      (uploadFlow st (some f) token).trace =
        [UpEvent.store (uploadsDir ++ [storedName token f.originalname]),
         UpEvent.openProbe (uploadsDir ++ [storedName token f.originalname]),
         UpEvent.unlink (uploadsDir ++ [storedName token f.originalname])]) := by
  have hns : ¬ fileSizeLimit < f.size := Nat.not_lt.mpr hsize
  constructor
  · intro hval
    simp [uploadFlow, hext, hns, hval]
  · intro hval
    simp [uploadFlow, hext, hns, hval]

/-- C5 amended, witness instance. -/
theorem probe_close_only_on_success_witness :
    ((⟨"good.db", 10, true⟩ : UploadFile).validSqlite = true →
      (uploadFlow ⟨[], none⟩ (some ⟨"good.db", 10, true⟩) 9).trace =
        [UpEvent.store (uploadsDir ++ [storedName 9 "good.db"]),
         UpEvent.openProbe (uploadsDir ++ [storedName 9 "good.db"]),
         UpEvent.closeProbe,
         UpEvent.setActive (uploadsDir ++ [storedName 9 "good.db"])]) ∧
    ((⟨"good.db", 10, true⟩ : UploadFile).validSqlite = false →
      UpEvent.closeProbe ∉
        (uploadFlow ⟨[], none⟩ (some ⟨"good.db", 10, true⟩) 9).trace ∧
      (uploadFlow ⟨[], none⟩ (some ⟨"good.db", 10, true⟩) 9).trace =
        [UpEvent.store (uploadsDir ++ [storedName 9 "good.db"]),
         UpEvent.openProbe (uploadsDir ++ [storedName 9 "good.db"]),
         UpEvent.unlink (uploadsDir ++ [storedName 9 "good.db"])]) :=
  probe_close_only_on_success ⟨[], none⟩ ⟨"good.db", 10, true⟩ 9
    (by decide) (by decide)

/-- C6 counterexample: a file named `report.txt` is rejected with HTTP
500 — a server error, not a client error. -/
theorem upload_bad_extension_not_client_error :
    (uploadFlow ⟨[], none⟩ (some ⟨"report.txt", 4, true⟩) 0).status = 500 ∧
    ¬ isClientError
      (uploadFlow ⟨[], none⟩ (some ⟨"report.txt", 4, true⟩) 0).status := by
  decide

/-- C6 amended: bad-extension and oversize failures answer a server
error (500) carrying the human-readable reason; a missing file answers
a distinct client error (400); structural-validation failure answers a
client error (400); a successful upload activates the database and
redirects (302). -/
theorem upload_response_taxonomy (st : SysState) (f : UploadFile)
    (token : Nat) :
    ((uploadFlow st none token).status = 400 ∧
      (uploadFlow st none token).message = "Error: No file selected" ∧
      isClientError (uploadFlow st none token).status) ∧
    (allowedExt f.originalname = false →
      (uploadFlow st (some f) token).status = 500 ∧
      (uploadFlow st (some f) token).message =
        "Error: File upload only supports the following filetypes - .db, .sqlite, .sqlite3 or files without an extension") ∧
    (allowedExt f.originalname = true → fileSizeLimit < f.size →
      (uploadFlow st (some f) token).status = 500) ∧
    (allowedExt f.originalname = true → f.size ≤ fileSizeLimit →
      f.validSqlite = false →
      (uploadFlow st (some f) token).status = 400 ∧
      isClientError (uploadFlow st (some f) token).status) ∧
    (allowedExt f.originalname = true → f.size ≤ fileSizeLimit →
      f.validSqlite = true →
      (uploadFlow st (some f) token).status = 302 ∧
      (uploadFlow st (some f) token).state.active =
        some (uploadsDir ++ [storedName token f.originalname])) := by
  refine ⟨by simp [uploadFlow, isClientError], ?_, ?_, ?_, ?_⟩
  · intro hext
    simp [uploadFlow, hext]
  · intro hext hsize
    simp [uploadFlow, hext, hsize]
  · intro hext hsize hval
    have hns : ¬ fileSizeLimit < f.size := Nat.not_lt.mpr hsize
    simp [uploadFlow, hext, hns, hval, isClientError]
  · intro hext hsize hval
    have hns : ¬ fileSizeLimit < f.size := Nat.not_lt.mpr hsize
    simp [uploadFlow, hext, hns, hval]

/-- C6 amended, witness instance. -/
theorem upload_response_taxonomy_witness :
    ((uploadFlow ⟨[], none⟩ none 0).status = 400 ∧
      (uploadFlow ⟨[], none⟩ none 0).message = "Error: No file selected" ∧
      isClientError (uploadFlow ⟨[], none⟩ none 0).status) ∧
    (allowedExt (⟨"report.txt", 4, true⟩ : UploadFile).originalname = false →
      (uploadFlow ⟨[], none⟩ (some ⟨"report.txt", 4, true⟩) 0).status = 500 ∧
      (uploadFlow ⟨[], none⟩ (some ⟨"report.txt", 4, true⟩) 0).message =
        "Error: File upload only supports the following filetypes - .db, .sqlite, .sqlite3 or files without an extension") ∧
    (allowedExt (⟨"report.txt", 4, true⟩ : UploadFile).originalname = true →
      fileSizeLimit < (⟨"report.txt", 4, true⟩ : UploadFile).size →
      (uploadFlow ⟨[], none⟩ (some ⟨"report.txt", 4, true⟩) 0).status = 500) ∧
    (allowedExt (⟨"report.txt", 4, true⟩ : UploadFile).originalname = true →
      (⟨"report.txt", 4, true⟩ : UploadFile).size ≤ fileSizeLimit →
      (⟨"report.txt", 4, true⟩ : UploadFile).validSqlite = false →
      (uploadFlow ⟨[], none⟩ (some ⟨"report.txt", 4, true⟩) 0).status = 400 ∧
      isClientError
        (uploadFlow ⟨[], none⟩ (some ⟨"report.txt", 4, true⟩) 0).status) ∧
    (allowedExt (⟨"report.txt", 4, true⟩ : UploadFile).originalname = true →
      (⟨"report.txt", 4, true⟩ : UploadFile).size ≤ fileSizeLimit →
      (⟨"report.txt", 4, true⟩ : UploadFile).validSqlite = true →
      (uploadFlow ⟨[], none⟩ (some ⟨"report.txt", 4, true⟩) 0).status = 302 ∧
      (uploadFlow ⟨[], none⟩
          (some ⟨"report.txt", 4, true⟩) 0).state.active =
        some (uploadsDir ++ [storedName 0 "report.txt"])) :=
  upload_response_taxonomy ⟨[], none⟩ ⟨"report.txt", 4, true⟩ 0

/-- C8: with no `projectId` supplied and at least one project present,
the resolved `selectedProjectId` is the id of a project whose
`created_at` is maximal among all projects. -/
theorem latest_project_preselected (db : Db) (q : NavQuery)
    (hq : q.projectId = none) (hne : getProjects db ≠ []) :
    ∃ p ∈ getProjects db,
      (resolveView db q).selectedProjectId = some p.id ∧
      ∀ p2 ∈ getProjects db, p2.created_at ≤ p.created_at := by
  cases hsort : sortProjectsDesc (getProjects db) with
  | nil =>
    exfalso
    have hperm := sortProjectsDesc_perm (getProjects db)
    rw [hsort] at hperm
    exact hne hperm.nil_eq.symm
  | cons p rest =>
    refine ⟨p, ?_, ?_, ?_⟩
    · have hp : p ∈ sortProjectsDesc (getProjects db) := by
        rw [hsort]; exact List.mem_cons_self p rest
      exact (sortProjectsDesc_perm (getProjects db)).mem_iff.mp hp
    · simp only [resolveView, hq, hsort]
    · exact sortProjectsDesc_head_max (getProjects db) p rest hsort

/-- C8, witness instance. -/
theorem latest_project_preselected_witness :
    ∃ p ∈ getProjects dbC4,
      (resolveView dbC4 {}).selectedProjectId = some p.id ∧
      ∀ p2 ∈ getProjects dbC4, p2.created_at ≤ p.created_at :=
  latest_project_preselected dbC4 {} rfl (by decide)

/-- C9: with an explicit `projectId` whose project has at least one
branch, the resolved `selectedBranchId` is the id of a branch of that
project with maximal `created_at`, and the query's `branchId` has no
influence on the resolved view at all. -/
theorem explicit_project_branch_resolution (db : Db) (q : NavQuery)
    (pid : Nat) (hp : q.projectId = some pid)
    (hb : getBranchesByProjectId db pid ≠ []) :
    (∃ b ∈ getBranchesByProjectId db pid,
      (resolveView db q).selectedBranchId = some b.id ∧
      ∀ b2 ∈ getBranchesByProjectId db pid,
        b2.created_at ≤ b.created_at) ∧
    ∀ bq : Option Nat,
      resolveView db { q with branchId := bq } = resolveView db q := by
  cases hsort : sortBranchesDesc (getBranchesByProjectId db pid) with
  | nil =>
    exfalso
    have hperm := sortBranchesDesc_perm (getBranchesByProjectId db pid)
    rw [hsort] at hperm
    exact hb hperm.nil_eq.symm
  | cons b rest =>
    constructor
    · refine ⟨b, ?_, ?_, ?_⟩
      · have hbmem : b ∈ sortBranchesDesc (getBranchesByProjectId db pid) := by
          rw [hsort]; exact List.mem_cons_self b rest
        exact (sortBranchesDesc_perm _).mem_iff.mp hbmem
      · simp only [resolveView, hp, hsort]
      · exact sortBranchesDesc_head_max _ b rest hsort
    · intro bq
      simp only [resolveView, hp, hsort, filterRequested]

/-- C9, witness instance. -/
theorem explicit_project_branch_resolution_witness :
    (∃ b ∈ getBranchesByProjectId dbC7 3,
      (resolveView dbC7 { projectId := some 3 }).selectedBranchId =
        some b.id ∧
      ∀ b2 ∈ getBranchesByProjectId dbC7 3,
        b2.created_at ≤ b.created_at) ∧
    ∀ bq : Option Nat,
      resolveView dbC7 { ({ projectId := some 3 } : NavQuery) with
          branchId := bq } =
        resolveView dbC7 { projectId := some 3 } :=
  explicit_project_branch_resolution dbC7 { projectId := some 3 } 3 rfl
    (by decide)

/-- C7 counterexample: with no query parameters at all a branch is
resolved and no filter field is present, yet the returned state list is
empty rather than the full unfiltered state list of that branch. -/
theorem resolved_branch_states_not_fetched :
    (resolveView dbC7 {}).selectedBranchId = some 5 ∧
    filterRequested {} = false ∧
    getProjectStatesByBranchId dbC7 5 ≠ [] ∧
    (resolveView dbC7 {}).projectStates ≠ getProjectStatesByBranchId dbC7 5 := by
  decide

/-- C7 amended: when an explicit `projectId` is supplied and a branch
id is resolved, the filtered multi-criteria search is used if and only
if one of task/epic/iteration/agent is present and non-empty (all
criteria passed through, conjoined), and otherwise the full unfiltered
state list of the resolved branch is returned; when no `projectId` is
supplied, no state query is performed and the state list stays empty. -/
theorem filter_dispatch (db : Db) (q : NavQuery) (pid bid : Nat)
    (hp : q.projectId = some pid)
    (hb : (resolveView db q).selectedBranchId = some bid) :
    (filterRequested q = true →
      (resolveView db q).projectStates =
        searchProjectStates db q.task q.epic q.iteration q.llm_request
          q.agent bid) ∧
    (filterRequested q = false →
      (resolveView db q).projectStates =
        getProjectStatesByBranchId db bid) ∧
    (∀ q2 : NavQuery, q2.projectId = none →
      (resolveView db q2).projectStates = []) := by
  have hthird : ∀ q2 : NavQuery, q2.projectId = none →
      (resolveView db q2).projectStates = [] := by
    intro q2 h2
    simp only [resolveView, h2]
    cases sortProjectsDesc (getProjects db) with
    | nil => rfl
    | cons p rest => rfl
  cases hsort : sortBranchesDesc (getBranchesByProjectId db pid) with
  | nil =>
    simp only [resolveView, hp, hsort] at hb ⊢
    rw [hb]
    refine ⟨?_, ?_, hthird⟩
    · intro hf
      simp [hf]
    · intro hf
      simp [hf]
  | cons b rest =>
    simp only [resolveView, hp, hsort] at hb ⊢
    cases hb
    refine ⟨?_, ?_, hthird⟩
    · intro hf
      simp [hf]
    · intro hf
      simp [hf]

/-- C7 amended, witness instance. -/
theorem filter_dispatch_witness :
    (filterRequested { projectId := some 3, task := some "t" } = true →
      (resolveView dbC7
          { projectId := some 3, task := some "t" }).projectStates =
        searchProjectStates dbC7 (some "t") none none none none 5) ∧
    (filterRequested { projectId := some 3, task := some "t" } = false →
      (resolveView dbC7
          { projectId := some 3, task := some "t" }).projectStates =
        getProjectStatesByBranchId dbC7 5) ∧
    (∀ q2 : NavQuery, q2.projectId = none →
      (resolveView dbC7 q2).projectStates = []) :=
  filter_dispatch dbC7 { projectId := some 3, task := some "t" } 3 5 rfl
    (by decide)

/-- C4 counterexample: in the two-project scenario (P1 newest with
branch B1 holding one state), a browse request with no query parameters
does resolve `selectedProjectId = P1.id` and `selectedBranchId = B1.id`,
but the returned state list is empty, not the full unfiltered state
list of B1. -/
theorem browse_no_params_empty_states :
    (resolveView dbC4 {}).selectedProjectId = some 1 ∧
    (resolveView dbC4 {}).selectedBranchId = some 10 ∧
    (resolveView dbC4 {}).projectStates = [] ∧
    getProjectStatesByBranchId dbC4 10 ≠ [] ∧
    (resolveView dbC4 {}).projectStates ≠
      getProjectStatesByBranchId dbC4 10 := by
  decide

/-- C4 amended: with two projects P1 (created at `t2`) and P2 (created
at `t1 < t2`) and P1 owning the single branch B1, a browse request with
no query parameters resolves `selectedProjectId` to P1's id and
`selectedBranchId` to B1's id, but returns an empty state list — states
are only fetched when a `projectId` is supplied explicitly. -/
theorem browse_no_params_preselects_latest (t1 t2 bca : Nat) (h : t1 < t2)
    (states : List ProjectState) :
    (resolveView ⟨[⟨1, t2⟩, ⟨2, t1⟩], [⟨10, 1, bca⟩], states⟩
        {}).selectedProjectId = some 1 ∧
    (resolveView ⟨[⟨1, t2⟩, ⟨2, t1⟩], [⟨10, 1, bca⟩], states⟩
        {}).selectedBranchId = some 10 ∧
    (resolveView ⟨[⟨1, t2⟩, ⟨2, t1⟩], [⟨10, 1, bca⟩], states⟩
        {}).projectStates = [] := by
  have hle : t1 ≤ t2 := Nat.le_of_lt h
  simp [resolveView, sortProjectsDesc, sortBranchesDesc, getProjects,
    getBranchesByProjectId, projDesc, branchDesc, hle]

/-- C4 amended, witness instance. -/
theorem browse_no_params_preselects_latest_witness :
    (resolveView ⟨[⟨1, 2⟩, ⟨2, 1⟩], [⟨10, 1, 5⟩], []⟩
        {}).selectedProjectId = some 1 ∧
    (resolveView ⟨[⟨1, 2⟩, ⟨2, 1⟩], [⟨10, 1, 5⟩], []⟩
        {}).selectedBranchId = some 10 ∧
    (resolveView ⟨[⟨1, 2⟩, ⟨2, 1⟩], [⟨10, 1, 5⟩], []⟩
        {}).projectStates = [] :=
  browse_no_params_preselects_latest 1 2 5 (by decide) []

end PythagoraLab
